import Mathlib

/-!
Verification development for the BlenderGIS LAZ/LAS import operator
(`src/operators/io_import_laz.py`, class `IMPORTLAZ_OT_georaster`).

The numerical pipeline of the operator is embedded shallowly:

* IEEE-style numbers are modelled by `FP`: an exact rational (`fin`),
  a signed infinity (`inf`), or `nan`.  The arithmetic operations follow
  IEEE 754 semantics for the special values (0/0 = nan, x/0 = ±inf for
  x ≠ 0, inf * 0 = nan, nan propagates), while finite arithmetic is kept
  exact over ℚ.  None of the verified properties depends on rounding.
* numpy elementwise operations on (n,3) arrays become `List.map` over
  componentwise operations on triples `V3 = FP × FP × FP`.
* The pyproj transformer is an abstract planar map `FP × FP → FP × FP`
  supplied as a parameter; `Transformer.from_crs` models the CRS library
  (external to the repository) constructing it from two CRS strings.
* Blender operator state (`self.report`, returning `{'FINISHED'}` /
  `{'CANCELLED'}`, objects linked to the scene) becomes explicit data
  threaded through `executeLoop`: a list of reports, an `Outcome`, and
  the list of objects linked so far.
-/

/-- IEEE-style scalar: an exact finite rational, a signed infinity
(`inf true` is +∞, `inf false` is −∞), or `nan`. -/
inductive FP where
  | fin : ℚ → FP
  | inf : Bool → FP
  | nan : FP
deriving DecidableEq, Repr

namespace FP

/-- IEEE addition on the embedded scalars. -/
def add : FP → FP → FP
  | nan, _ => nan
  | _, nan => nan
  | fin a, fin b => fin (a + b)
  | inf s, fin _ => inf s
  | fin _, inf s => inf s
  | inf s, inf t => if s = t then inf s else nan

/-- IEEE negation. -/
def neg : FP → FP
  | nan => nan
  | fin a => fin (-a)
  | inf s => inf (!s)

/-- IEEE subtraction. -/
def sub (x y : FP) : FP := add x (neg y)

/-- IEEE multiplication; `inf * 0 = nan`, signs multiply. -/
def mul : FP → FP → FP
  | nan, _ => nan
  | _, nan => nan
  | fin a, fin b => fin (a * b)
  | inf s, fin b => if b = 0 then nan else inf (s = decide (0 < b))
  | fin a, inf s => if a = 0 then nan else inf (s = decide (0 < a))
  | inf s, inf t => inf (s = t)

/-- IEEE division; `0/0 = nan`, `x/0 = ±inf` for finite `x ≠ 0`
(the zero produced by the pipeline is +0, so the sign is that of `x`),
`x/inf = 0`, `inf/inf = nan`. -/
def div : FP → FP → FP
  | nan, _ => nan
  | _, nan => nan
  | fin a, fin b =>
      if b = 0 then (if a = 0 then nan else inf (decide (0 < a))) else fin (a / b)
  | fin _, inf _ => fin 0
  | inf s, fin b => if b = 0 then inf s else inf (s = decide (0 < b))
  | inf _, inf _ => nan

end FP

/-- A point or vector: the embedding of one row of a numpy (n,3) array. -/
abbrev V3 : Type := FP × FP × FP

/-- Componentwise lift of a binary scalar operation to `V3`
(numpy elementwise semantics). -/
def cw2 (f : FP → FP → FP) (a b : V3) : V3 :=
  (f a.1 b.1, f a.2.1 b.2.1, f a.2.2 b.2.2)

/-- Elementwise vector addition. -/
def V3.add (a b : V3) : V3 := cw2 FP.add a b

/-- Elementwise vector subtraction. -/
def V3.sub (a b : V3) : V3 := cw2 FP.sub a b

/-- Elementwise vector multiplication (numpy `*` on two arrays). -/
def V3.mul (a b : V3) : V3 := cw2 FP.mul a b

/-- Elementwise vector division (numpy `/` on two arrays). -/
def V3.div (a b : V3) : V3 := cw2 FP.div a b

/-- Vector times scalar (numpy array–scalar broadcasting). -/
def V3.smul (a : V3) (s : FP) : V3 := (FP.mul a.1 s, FP.mul a.2.1 s, FP.mul a.2.2 s)

/-- Vector divided by scalar (numpy array–scalar broadcasting). -/
def V3.sdiv (a : V3) (s : FP) : V3 := (FP.div a.1 s, FP.div a.2.1 s, FP.div a.2.2 s)

/-- Inject an exact rational triple into the embedded scalars. -/
def finV (q : ℚ × ℚ × ℚ) : V3 := (FP.fin q.1, FP.fin q.2.1, FP.fin q.2.2)

/-- NaN on every axis. -/
def nanV : V3 := (FP.nan, FP.nan, FP.nan)

/-- Outcome of `laspy`'s `parse_crs()` on the file header, as observed by
the `try` block in `scaled_dimension` (lines 509–512): a valid CRS, `None`
(no CRS metadata), or a raised `pyproj.exceptions.CRSError`. -/
inductive ParsedCRS where
  | ok : String → ParsedCRS
  | absent : ParsedCRS
  | crsError : ParsedCRS
deriving DecidableEq, Repr

/-- Level passed to Blender's `self.report`. -/
inductive ReportLevel where
  | ERROR : ReportLevel
  | WARNING : ReportLevel
deriving DecidableEq, Repr

/-- One `self.report` call: level and message. -/
structure Report where
  level : ReportLevel
  message : String
deriving DecidableEq, Repr

/-- The parsed LAS/LAZ file as `scaled_dimension` consumes it: the point
array `las_file.xyz`, the header corners (`x_min`,`y_min`,`z_min`) and
(`x_max`,`y_max`,`z_max`), and the `parse_crs()` outcome. -/
structure LasData where
  verts : List V3
  minC : V3
  maxC : V3
  parsed : ParsedCRS
deriving DecidableEq, Repr

/-- CRS resolution of `scaled_dimension` (lines 507–516): `is_fallback`
starts `False`; a `CRSError` from `parse_crs` is caught and treated like a
`None` result; in either of those cases the code reports at level `'ERROR'`
("Source CRS was not detected, assingning Fallback CRS " + fallbackCRS),
takes the fallback CRS and sets `is_fallback = True`. -/
def scaled_dimension_resolve (parsed : ParsedCRS) (fallbackCRS : String) :
    String × Bool × List Report :=
  match parsed with
  | .ok c => (c, false, [])
  | .absent =>
      (fallbackCRS, true,
        [⟨.ERROR, "Source CRS was not detected, assingning Fallback CRS " ++ fallbackCRS⟩])
  | .crsError =>
      (fallbackCRS, true,
        [⟨.ERROR, "Source CRS was not detected, assingning Fallback CRS " ++ fallbackCRS⟩])

/-- Modelled from the spec: the CRS library (pyproj, external to `src/`)
constructs a planar transformer from two CRS strings
(`pyproj.Transformer.from_crs(source_crs, target_crs, always_xy=True)`,
line 518).  Per spec §4.1, for `sourceCRS == targetCRS` (by value) the
transform is logically a no-op, i.e. the identity planar map; for distinct
CRS values the map is the abstract library transform `planar s t`. -/
def Transformer.from_crs (planar : String → String → (FP × FP → FP × FP))
    (s t : String) : FP × FP → FP × FP :=
  if s = t then (fun p => p) else planar s t

/-- One row of the transform step (lines 524, 528–529): the projecter is
applied to the x and y columns and the results written back; the z column
is never assigned. -/
def reprojPoint (T : FP × FP → FP × FP) (p : V3) : V3 :=
  ((T (p.1, p.2.1)).1, (T (p.1, p.2.1)).2, p.2.2)

/-- Result of `scaled_dimension` (line 536): the transformed point array,
the pair `(min_coords[0], max_coords[0])`, the resolved source CRS, the
fallback flag, plus the reports emitted on the way. -/
structure SDResult where
  xyz : List V3
  coords : V3 × V3
  source_crs : String
  is_fallback : Bool
  reports : List Report
deriving DecidableEq, Repr

/-- `scaled_dimension(self, las_file, targetCRS, fallbackCRS)`, lines
504–536.  `target_crs` is `'EPSG:3857'` when `targetCRS` is `None`
(line 506).  The source CRS is resolved with fallback, the projecter is
built for source→target, and the x,y columns of the point array and of the
two header corners are transformed (the z components pass through).  The
final `xyz = np.array([item for item in xyz])` (line 534) is the identity
comprehension, embedded as a `map` of the identity. -/
def scaled_dimension (planar : String → String → (FP × FP → FP × FP))
    (las_file : LasData) (targetCRS : Option String) (fallbackCRS : String) : SDResult :=
  let target_crs := match targetCRS with | none => "EPSG:3857" | some t => t
  let r := scaled_dimension_resolve las_file.parsed fallbackCRS
  let projecter := Transformer.from_crs planar r.1 target_crs
  let xyz := (las_file.verts.map (reprojPoint projecter)).map (fun item => item)
  ⟨xyz, (reprojPoint projecter las_file.minC, reprojPoint projecter las_file.maxC),
    r.1, r.2.1, r.2.2⟩

/-- The per-file scale/normalize block of `execute` (lines 288–295), on the
values returned by `scaled_dimension`: multiply points and both corners by
`import_scale`; `midpoint = min_coords + (max_coords - min_coords) * 0.5`;
`delta_coords = max_coords - min_coords`;
`normalised_coords = (verts - min_coords - delta_coords/2.0) / (delta_coords/2.0)`;
`coords = normalised_coords * delta_coords / 2.0`.  There is no guard for a
zero extent: the division is performed as written.  Returns the final
per-point coordinates handed to `pc.from_pydata` and the midpoint. -/
def perFileCompute (import_scale : FP) (verts : List V3) (c0 c1 : V3) :
    List V3 × V3 :=
  let verts := verts.map (fun v => V3.smul v import_scale)
  let min_coords := V3.smul c0 import_scale
  let max_coords := V3.smul c1 import_scale
  let midpoint := V3.add min_coords (V3.smul (V3.sub max_coords min_coords) (FP.fin (1/2)))
  let delta_coords := V3.sub max_coords min_coords
  let normalised_coords := verts.map (fun v =>
    V3.div (V3.sub (V3.sub v min_coords) (V3.sdiv delta_coords (FP.fin 2)))
      (V3.sdiv delta_coords (FP.fin 2)))
  let coords := normalised_coords.map (fun n =>
    V3.sdiv (V3.mul n delta_coords) (FP.fin 2))
  (coords, midpoint)

/-- The per-axis value of the final coordinates of `perFileCompute`: the
scalar computation that the componentwise numpy expressions of lines
288–295 perform on one axis of one point. -/
def axisFinal (s v mn mx : FP) : FP :=
  let v' := FP.mul v s
  let mn' := FP.mul mn s
  let mx' := FP.mul mx s
  let d := FP.sub mx' mn'
  let h := FP.div d (FP.fin 2)
  FP.div (FP.mul (FP.div (FP.sub (FP.sub v' mn') h) h) d) (FP.fin 2)

/-- The per-axis midpoint of `perFileCompute` (line 291) on one axis. -/
def axisMid (s mn mx : FP) : FP :=
  FP.add (FP.mul mn s) (FP.mul (FP.sub (FP.mul mx s) (FP.mul mn s)) (FP.fin (1/2)))

/-- Sum of a list of vectors, elementwise (the reduction inside
`np.mean(·, axis=0)`). -/
def npSum : List V3 → V3
  | [] => (FP.fin 0, FP.fin 0, FP.fin 0)
  | v :: r => V3.add v (npSum r)

/-- `np.mean(midpoint_list, axis=0)` (line 318): elementwise sum divided by
the length.  For an empty list this is 0/0 on every axis, i.e. numpy's
"mean of empty slice" NaN — no exception is raised. -/
def npMean (l : List V3) : V3 :=
  V3.sdiv (npSum l) (FP.fin (l.length : ℚ))

/-- A Blender `FloatProperty` declaration: default and the optional
`min` / `max` keyword bounds. -/
structure FloatPropDef where
  default : ℚ
  minBound : Option ℚ
  maxBound : Option ℚ
deriving DecidableEq, Repr

/-- The `import_scale` property (lines 114–118): `default=1.0`, and no
`min` or `max` keyword — the declaration imposes no bound. -/
def import_scale : FloatPropDef := ⟨1, none, none⟩

/-- Whether a `FloatProperty` declaration accepts a value: with no declared
bounds every value is accepted. -/
def FloatPropDef.accepts (p : FloatPropDef) (v : ℚ) : Bool :=
  (match p.minBound with | none => true | some m => decide (m ≤ v)) &&
  (match p.maxBound with | none => true | some m => decide (v ≤ m))

/-- Outcome of one `laspy.read(filePath)` call inside the `execute` loop
(lines 276–284): success, an `IOError`, or an `OverlapError`. -/
inductive ReadResult where
  | ok : LasData → ReadResult
  | ioError : ReadResult
  | overlapError : ReadResult
deriving DecidableEq, Repr

/-- Return value of the Blender operator: `{'FINISHED'}` or `{'CANCELLED'}`. -/
inductive Outcome where
  | FINISHED : Outcome
  | CANCELLED : Outcome
deriving DecidableEq, Repr

/-- One imported object as linked to the scene by the loop body (lines
286–316): the point coordinates handed to `from_pydata`, the object
location (set to the midpoint), and the custom properties `laz_midpoint`,
`source_crs`, `is_fallback` and `import_scale`. -/
structure Obj where
  coords : List V3
  location : V3
  laz_midpoint : V3
  source_crs : String
  is_fallback : Bool
  importScaleProp : FP
deriving DecidableEq, Repr

/-- Build the object the loop body links to the scene for one successfully
read file (lines 286–316). -/
def mkObj (planar : String → String → (FP × FP → FP × FP)) (scaleArg : FP)
    (fallbackCRS : String) (targetCRS : Option String) (d : LasData) : Obj :=
  let sd := scaled_dimension planar d targetCRS fallbackCRS
  let r := perFileCompute scaleArg sd.xyz sd.coords.1 sd.coords.2
  ⟨r.1, r.2, r.2, sd.source_crs, sd.is_fallback, scaleArg⟩

/-- The midpoint the loop body appends to `midpoint_list` for one file
(lines 291–292). -/
def fileMid (planar : String → String → (FP × FP → FP × FP)) (scaleArg : FP)
    (fallbackCRS : String) (targetCRS : Option String) (d : LasData) : V3 :=
  let sd := scaled_dimension planar d targetCRS fallbackCRS
  (perFileCompute scaleArg sd.xyz sd.coords.1 sd.coords.2).2

/-- Reports emitted by `scaled_dimension` for one file. -/
def fileReports (fallbackCRS : String) (d : LasData) : List Report :=
  (scaled_dimension_resolve d.parsed fallbackCRS).2.2

/-- Final state of a batch run: the objects linked to the scene (the parent
empty, linked at line 266 before the loop, is kept implicit and always
present), the reports emitted, the parent location `midpoint_mean` when the
loop completed (lines 318–321), and the operator outcome. -/
structure ExecResult where
  objs : List Obj
  reports : List Report
  parentLoc : Option V3
  outcome : Outcome
deriving DecidableEq, Repr

/-- The `for f in self.files` loop of `execute` (lines 272–322) with the
scene state made explicit.  Objects created for earlier files have already
been linked to the scene by `placeObj` (line 307); when a later
`laspy.read` raises `IOError` or `OverlapError` the operator reports an
error and returns `{'CANCELLED'}` at once (lines 278–284) — the objects
linked so far stay in the scene and `midpoint_mean` is never computed.
When the loop completes, `midpoint_mean = np.mean(midpoint_list, axis=0)`
becomes the parent location and the outcome is `{'FINISHED'}`. -/
def executeLoop (planar : String → String → (FP × FP → FP × FP)) (scaleArg : FP)
    (fallbackCRS : String) (targetCRS : Option String) :
    List ReadResult → List Obj → List V3 → List Report → ExecResult
  | [], objs, mids, reps => ⟨objs, reps, some (npMean mids), .FINISHED⟩
  | .ioError :: _, objs, _, reps =>
      ⟨objs, reps ++ [⟨.ERROR, "Unable to open raster, check logs for more infos"⟩],
        none, .CANCELLED⟩
  | .overlapError :: _, objs, _, reps =>
      ⟨objs, reps ++ [⟨.ERROR, "Non overlap data"⟩], none, .CANCELLED⟩
  | .ok d :: rest, objs, mids, reps =>
      executeLoop planar scaleArg fallbackCRS targetCRS rest
        (objs ++ [mkObj planar scaleArg fallbackCRS targetCRS d])
        (mids ++ [fileMid planar scaleArg fallbackCRS targetCRS d])
        (reps ++ fileReports fallbackCRS d)

/-- The batch part of `execute` (lines 263–342), starting from an empty
scene, empty `midpoint_list` and no reports.  The scene-origin bookkeeping
of lines 334–340 (GeoScene origin and crs shift) concerns host scene state
outside the imported objects and is not modelled. -/
def execute (planar : String → String → (FP × FP → FP × FP)) (scaleArg : FP)
    (fallbackCRS : String) (targetCRS : Option String)
    (files : List ReadResult) : ExecResult :=
  executeLoop planar scaleArg fallbackCRS targetCRS files [] [] []

section ScalarLemmas

@[simp] lemma FP.add_fin (a b : ℚ) : FP.add (.fin a) (.fin b) = .fin (a + b) := rfl

@[simp] lemma FP.sub_fin (a b : ℚ) : FP.sub (.fin a) (.fin b) = .fin (a - b) := by
  simp [FP.sub, FP.add, FP.neg, sub_eq_add_neg]

@[simp] lemma FP.mul_fin (a b : ℚ) : FP.mul (.fin a) (.fin b) = .fin (a * b) := rfl

lemma FP.div_fin {b : ℚ} (a : ℚ) (hb : b ≠ 0) :
    FP.div (.fin a) (.fin b) = .fin (a / b) := by
  simp [FP.div, hb]

@[simp] lemma FP.div_fin_two (a : ℚ) : FP.div (.fin a) (.fin 2) = .fin (a / 2) :=
  FP.div_fin a two_ne_zero

/-- The final coordinates and midpoint of `perFileCompute` are the per-axis
functions `axisFinal` and `axisMid` applied componentwise: the numpy
expressions of lines 288–295 are elementwise. -/
lemma perFileCompute_axis (s : FP) (verts : List V3) (c0 c1 : V3) :
    perFileCompute s verts c0 c1 =
      (verts.map (fun v =>
          (axisFinal s v.1 c0.1 c1.1,
           axisFinal s v.2.1 c0.2.1 c1.2.1,
           axisFinal s v.2.2 c0.2.2 c1.2.2)),
       (axisMid s c0.1 c1.1, axisMid s c0.2.1 c1.2.1, axisMid s c0.2.2 c1.2.2)) := by
  simp only [perFileCompute, axisFinal, axisMid, V3.smul, V3.add, V3.sub, V3.mul, V3.div,
    V3.sdiv, cw2, List.map_map]
  rfl

/-- One axis of the round trip at scale 1: when the axis extent is nonzero,
final coordinate plus midpoint recovers the original value exactly. -/
lemma axis_roundTrip (a b c : ℚ) (h : b ≠ a) :
    FP.add (axisFinal (.fin 1) (.fin c) (.fin a) (.fin b))
      (axisMid (.fin 1) (.fin a) (.fin b)) = .fin c := by
  have hba : b - a ≠ 0 := sub_ne_zero.mpr h
  have hh : (b - a) / 2 ≠ 0 := div_ne_zero hba two_ne_zero
  unfold axisFinal axisMid
  simp only [FP.mul_fin, mul_one, FP.sub_fin, FP.div_fin_two]
  rw [FP.div_fin _ hh]
  simp only [FP.mul_fin, FP.div_fin_two, FP.add_fin]
  congr 1
  field_simp
  ring

/-- One axis with zero extent (`mn = mx`): the scaled delta is 0, the
normalization divides by zero, and after the re-expansion by `delta/2 = 0`
the final coordinate is NaN whatever the point value and scale are
(0/0 = NaN directly, or ±inf · 0 = NaN). -/
lemma axisFinal_degenerate (s a c : ℚ) :
    axisFinal (.fin s) (.fin c) (.fin a) (.fin a) = .nan := by
  unfold axisFinal
  simp only [FP.mul_fin, FP.sub_fin, sub_self, FP.div_fin_two, zero_div, sub_zero]
  rcases eq_or_ne (c * s - a * s) 0 with h0 | h0
  · rw [h0]
    rfl
  · simp only [FP.div, h0, if_pos rfl, if_neg h0]
    simp [FP.mul]

/-- One axis at scale 0: every scaled value collapses to 0, the
normalization is 0/0, and the final coordinate is NaN. -/
lemma axisFinal_scaleZero (v mn mx : ℚ) :
    axisFinal (.fin 0) (.fin v) (.fin mn) (.fin mx) = .nan := by
  unfold axisFinal
  simp only [FP.mul_fin, mul_zero, FP.sub_fin, sub_self, FP.div_fin_two, zero_div, sub_zero]
  rfl

end ScalarLemmas

/-- C1 counterexample: on a single-point file (point (1,2,3), header min =
max = (1,2,3)) at scale 1, the final coordinates produced by lines 293–295
are NaN on every axis — not 0 as the claim states: there is no
division-by-zero guard in the code. -/
theorem C1_counterexample :
    (perFileCompute (.fin 1) ([(1, 2, 3)].map finV) (finV (1, 2, 3))
        (finV (1, 2, 3))).1 = [nanV] ∧ FP.nan ≠ FP.fin 0 := by
  refine ⟨?_, by simp⟩
  rw [perFileCompute_axis]
  simp [finV, nanV, axisFinal_degenerate]

/-- C1 (amended): for every input whose scaled bounding box has zero
extent on the x axis (header min and max agree there), the final
coordinate on that axis is NaN for every point — the normalization
divides by the zero half-extent and the re-expansion multiplies by zero,
yielding 0/0 = NaN or ±inf·0 = NaN.  (By the componentwise symmetry of
`perFileCompute` the same holds for the y and z axes.) -/
theorem C1_amended_degenerate_axis_nan (s : ℚ) (verts : List (ℚ × ℚ × ℚ))
    (a mnY mnZ mxY mxZ : ℚ) :
    ((perFileCompute (.fin s) (verts.map finV) (finV (a, mnY, mnZ))
          (finV (a, mxY, mxZ))).1).map (fun p => p.1)
      = verts.map (fun _ => FP.nan) := by
  rw [perFileCompute_axis]
  simp only [List.map_map]
  refine List.map_congr_left fun q _ => ?_
  simpa [Function.comp, finV] using axisFinal_degenerate s a q.1

/-- C2: at scale 1, on a bounding box with nonzero extent on all axes,
every final per-point coordinate plus the midpoint recovers the original
point exactly (the embedding computes with exact rationals, so "within
floating-point tolerance" holds as exact equality). -/
theorem C2_roundTrip (verts : List (ℚ × ℚ × ℚ)) (mn mx : ℚ × ℚ × ℚ)
    (h1 : mx.1 ≠ mn.1) (h2 : mx.2.1 ≠ mn.2.1) (h3 : mx.2.2 ≠ mn.2.2) :
    ((perFileCompute (.fin 1) (verts.map finV) (finV mn) (finV mx)).1).map
        (fun p => V3.add p
          (perFileCompute (.fin 1) (verts.map finV) (finV mn) (finV mx)).2)
      = verts.map finV := by
  rw [perFileCompute_axis]
  simp only [List.map_map]
  refine List.map_congr_left fun q _ => ?_
  simp only [Function.comp, finV, V3.add, cw2]
  exact Prod.ext (axis_roundTrip _ _ _ h1)
    (Prod.ext (axis_roundTrip _ _ _ h2) (axis_roundTrip _ _ _ h3))

/-- C2 witness: the round trip at the concrete input
verts = [(0,0,0),(1,2,3)], bbox (0,0,0)–(2,4,6), scale 1. -/
theorem C2_roundTrip_witness :
    (((2, 4, 6) : ℚ × ℚ × ℚ).1 ≠ ((0, 0, 0) : ℚ × ℚ × ℚ).1 ∧
     ((2, 4, 6) : ℚ × ℚ × ℚ).2.1 ≠ ((0, 0, 0) : ℚ × ℚ × ℚ).2.1 ∧
     ((2, 4, 6) : ℚ × ℚ × ℚ).2.2 ≠ ((0, 0, 0) : ℚ × ℚ × ℚ).2.2) ∧
    ((perFileCompute (.fin 1) ([(0, 0, 0), (1, 2, 3)].map finV) (finV (0, 0, 0))
          (finV (2, 4, 6))).1).map
        (fun p => V3.add p
          (perFileCompute (.fin 1) ([(0, 0, 0), (1, 2, 3)].map finV) (finV (0, 0, 0))
            (finV (2, 4, 6))).2)
      = [(0, 0, 0), (1, 2, 3)].map finV :=
  ⟨⟨by norm_num, by norm_num, by norm_num⟩,
    C2_roundTrip [(0, 0, 0), (1, 2, 3)] (0, 0, 0) (2, 4, 6)
      (by norm_num) (by norm_num) (by norm_num)⟩

/-- C10: the `import_scale` property declaration carries no bound, so the
value 0 is accepted; at scale 0 the scaled extent is zero on every axis,
the normalization step computes 0/0 = NaN, and every final coordinate of
every point is NaN. -/
theorem C10_scale_zero_nan :
    import_scale.accepts 0 = true ∧
    FP.div (.fin 0) (.fin 0) = .nan ∧
    ∀ (verts : List (ℚ × ℚ × ℚ)) (mn mx : ℚ × ℚ × ℚ),
      (perFileCompute (.fin 0) (verts.map finV) (finV mn) (finV mx)).1
        = verts.map (fun _ => nanV) := by
  refine ⟨rfl, rfl, fun verts mn mx => ?_⟩
  rw [perFileCompute_axis]
  simp only [List.map_map]
  refine List.map_congr_left fun q _ => ?_
  simp [Function.comp, finV, nanV, axisFinal_scaleZero]

/-- A concrete file with a valid embedded CRS, used by witnesses. -/
def dOk : LasData :=
  ⟨[(FP.fin 1, FP.fin 2, FP.fin 3)], (FP.fin 0, FP.fin 0, FP.fin 0),
    (FP.fin 4, FP.fin 4, FP.fin 4), .ok "EPSG:3857"⟩

/-- A concrete file with no embedded CRS, used by witnesses. -/
def dAbsent : LasData :=
  ⟨[(FP.fin 1, FP.fin 2, FP.fin 3)], (FP.fin 0, FP.fin 0, FP.fin 0),
    (FP.fin 4, FP.fin 4, FP.fin 4), .absent⟩

/-- C3: `is_fallback` is true iff the embedded CRS was absent or failed to
parse; when the embedded CRS is present and valid it is returned with
`is_fallback = false`, regardless of the fallback value. -/
theorem C3_usedFallback_iff (e : ParsedCRS) (fb : String) :
    ((scaled_dimension_resolve e fb).2.1 = true ↔ e = .absent ∨ e = .crsError) ∧
    (∀ c, e = .ok c →
      (scaled_dimension_resolve e fb).1 = c ∧
      (scaled_dimension_resolve e fb).2.1 = false) := by
  cases e <;> simp [scaled_dimension_resolve]

/-- C3 witness: a present valid embedded CRS is returned unchanged with
`is_fallback = false`. -/
theorem C3_usedFallback_iff_witness :
    (scaled_dimension_resolve (.ok "EPSG:2154") "EPSG:4326").1 = "EPSG:2154" ∧
    (scaled_dimension_resolve (.ok "EPSG:2154") "EPSG:4326").2.1 = false :=
  (C3_usedFallback_iff (.ok "EPSG:2154") "EPSG:4326").2 "EPSG:2154" rfl

/-- C4 counterexample: with the embedded CRS absent, the notification the
code emits (line 514) is passed to `self.report` at level `'ERROR'` — not
at a warning level as the claim states. -/
theorem C4_counterexample :
    (scaled_dimension_resolve .absent "EPSG:4326").2.2 =
      [⟨.ERROR, "Source CRS was not detected, assingning Fallback CRS EPSG:4326"⟩] ∧
    ReportLevel.ERROR ≠ ReportLevel.WARNING := by
  exact ⟨rfl, by simp⟩

/-- C4 (amended): whenever CRS resolution falls through to the fallback,
the pipeline emits exactly one notification — at level `'ERROR'`, not
warning level — whose message names the fallback CRS; despite the level
the notification does not abort processing: `scaled_dimension` returns
normally with `is_fallback = true` and a one-file batch still finishes
with `{'FINISHED'}`. -/
theorem C4_amended_fallback_report
    (planar : String → String → (FP × FP → FP × FP)) (s : FP) (fb : String)
    (t : Option String) (d : LasData) (h : d.parsed = .absent) :
    (scaled_dimension planar d t fb).reports
        = [⟨.ERROR, "Source CRS was not detected, assingning Fallback CRS " ++ fb⟩] ∧
    (scaled_dimension planar d t fb).is_fallback = true ∧
    (execute planar s fb t [.ok d]).outcome = .FINISHED := by
  refine ⟨?_, ?_, ?_⟩ <;>
    simp [scaled_dimension, execute, executeLoop, fileReports,
      scaled_dimension_resolve, h]

/-- C4 amended witness: the fallback report and normal completion at a
concrete one-file batch with absent embedded CRS. -/
theorem C4_amended_fallback_report_witness :
    (scaled_dimension (fun _ _ p => p) dAbsent none "EPSG:4326").reports
        = [⟨.ERROR, "Source CRS was not detected, assingning Fallback CRS " ++ "EPSG:4326"⟩] ∧
    (scaled_dimension (fun _ _ p => p) dAbsent none "EPSG:4326").is_fallback = true ∧
    (execute (fun _ _ p => p) (.fin 1) "EPSG:4326" none [.ok dAbsent]).outcome = .FINISHED :=
  C4_amended_fallback_report (fun _ _ p => p) (.fin 1) "EPSG:4326" none dAbsent rfl

/-- C5: the reprojection step transforms only the x and y components; the
z component of every point and of both bbox corners passes through
unchanged, for every planar transformer and every input. -/
theorem C5_z_passthrough (planar : String → String → (FP × FP → FP × FP))
    (d : LasData) (t : Option String) (fb : String) :
    ((scaled_dimension planar d t fb).xyz).map (fun p => p.2.2)
        = d.verts.map (fun p => p.2.2) ∧
    (scaled_dimension planar d t fb).coords.1.2.2 = d.minC.2.2 ∧
    (scaled_dimension planar d t fb).coords.2.2.2 = d.maxC.2.2 := by
  refine ⟨?_, rfl, rfl⟩
  simp [scaled_dimension, reprojPoint, List.map_map, Function.comp]

/-- C8: when the resolved source CRS equals the target CRS, the transformer
the CRS library builds is the identity planar map and `scaled_dimension` —
through the same unconditional code path used for any CRS pair — returns
the points and both corners exactly unchanged (exact equality, hence a
fortiori within tolerance 1e-9). -/
theorem C8_identity_reproject (planar : String → String → (FP × FP → FP × FP))
    (c fb : String) (d : LasData) (h : d.parsed = .ok c) :
    (scaled_dimension planar d (some c) fb).xyz = d.verts ∧
    (scaled_dimension planar d (some c) fb).coords = (d.minC, d.maxC) := by
  have hid : ∀ p : V3, reprojPoint (fun q => q) p = p := fun _ => rfl
  constructor <;>
    simp [scaled_dimension, scaled_dimension_resolve, h, Transformer.from_crs,
      Function.comp_def, hid]

/-- C8 witness: identity reprojection at a concrete file whose embedded
CRS equals the target, under a planar map that is not the identity (the
equal-CRS transformer ignores it). -/
theorem C8_identity_reproject_witness :
    (scaled_dimension (fun _ _ _ => (FP.fin 9, FP.fin 9)) dOk
        (some "EPSG:3857") "EPSG:4326").xyz = dOk.verts ∧
    (scaled_dimension (fun _ _ _ => (FP.fin 9, FP.fin 9)) dOk
        (some "EPSG:3857") "EPSG:4326").coords = (dOk.minC, dOk.maxC) :=
  C8_identity_reproject (fun _ _ _ => (FP.fin 9, FP.fin 9)) "EPSG:3857"
    "EPSG:4326" dOk rfl

/-- The per-point function that the whole per-file pipeline (reproject,
then scale and normalize) applies to each input point: reprojection of the
x,y components followed by the per-axis final-coordinate computation
against the reprojected bounding-box corners. -/
def perPointFinal (T : FP × FP → FP × FP) (s : FP) (mn mx : V3) (v : V3) : V3 :=
  let w := reprojPoint T v
  (axisFinal s w.1 mn.1 mx.1,
   axisFinal s w.2.1 mn.2.1 mx.2.1,
   axisFinal s w.2.2 mn.2.2 mx.2.2)

/-- C9: the point sequence an imported object carries is a `map` of one
per-point function over the input sequence — the pipeline keeps exactly
the input cardinality and order; no point is dropped, added or
reordered. -/
theorem C9_order_cardinality (planar : String → String → (FP × FP → FP × FP))
    (s : FP) (fb : String) (t : Option String) (d : LasData) :
    (mkObj planar s fb t d).coords
        = d.verts.map (perPointFinal
            (Transformer.from_crs planar (scaled_dimension_resolve d.parsed fb).1
              (match t with | none => "EPSG:3857" | some u => u)) s
            (scaled_dimension planar d t fb).coords.1
            (scaled_dimension planar d t fb).coords.2) ∧
    (mkObj planar s fb t d).coords.length = d.verts.length := by
  have h : (mkObj planar s fb t d).coords
      = d.verts.map (perPointFinal
          (Transformer.from_crs planar (scaled_dimension_resolve d.parsed fb).1
            (match t with | none => "EPSG:3857" | some u => u)) s
          (scaled_dimension planar d t fb).coords.1
          (scaled_dimension planar d t fb).coords.2) := by
    simp only [mkObj, scaled_dimension, perFileCompute_axis, perPointFinal,
      List.map_map]
    rfl
  exact ⟨h, by rw [h, List.length_map]⟩

/-- Componentwise arithmetic mean over exact rational triples: the
mathematical mean the spec's `aggregateMidpoints` describes, used to
compare against the code's `npMean`. -/
def qMean (l : List (ℚ × ℚ × ℚ)) : ℚ × ℚ × ℚ :=
  ((l.map (fun q => q.1)).sum / l.length,
   (l.map (fun q => q.2.1)).sum / l.length,
   (l.map (fun q => q.2.2)).sum / l.length)

/-- Elementwise sum of injected rational triples is the injected
componentwise sum. -/
lemma npSum_finV (l : List (ℚ × ℚ × ℚ)) :
    npSum (l.map finV)
      = finV ((l.map (fun q => q.1)).sum, (l.map (fun q => q.2.1)).sum,
          (l.map (fun q => q.2.2)).sum) := by
  induction l with
  | nil => rfl
  | cons q r ih => simp [npSum, ih, V3.add, cw2, finV]

/-- C6 counterexample: `np.mean` over an empty midpoint list returns the
NaN value (0/0 on every axis, numpy's "mean of empty slice") — it does not
fail with any error; no `EmptyBatchError` exists in the code. -/
theorem C6_counterexample : npMean [] = nanV := by
  simp [npMean, npSum, V3.sdiv, nanV, FP.div]

/-- C6 (amended): over a non-empty sequence of midpoints `np.mean` returns
the componentwise arithmetic mean exactly; over an empty sequence it
returns NaN on every axis instead of failing. -/
theorem C6_amended_mean (l : List (ℚ × ℚ × ℚ)) (h : l ≠ []) :
    npMean (l.map finV) = finV (qMean l) ∧ npMean [] = nanV := by
  have hn : ((l.length : ℚ)) ≠ 0 :=
    Nat.cast_ne_zero.mpr (List.length_pos.mpr h).ne'
  constructor
  · unfold npMean
    rw [npSum_finV]
    simp [V3.sdiv, finV, qMean, FP.div_fin _ hn, List.length_map]
  · simp [npMean, npSum, V3.sdiv, nanV, FP.div]

/-- C6 amended witness: the mean at the concrete midpoint lists of the
claim — [(0,0,0),(2,2,2)] and the empty list. -/
theorem C6_amended_mean_witness :
    (([(0, 0, 0), (2, 2, 2)] : List (ℚ × ℚ × ℚ)) ≠ []) ∧
    npMean (([(0, 0, 0), (2, 2, 2)] : List (ℚ × ℚ × ℚ)).map finV)
        = finV (qMean [(0, 0, 0), (2, 2, 2)]) :=
  ⟨by simp, (C6_amended_mean [(0, 0, 0), (2, 2, 2)] (by simp)).1⟩

/-- Processing a run of successfully read files appends, in input order,
one linked object, one midpoint and the per-file reports per file. -/
lemma executeLoop_ok_run (planar : String → String → (FP × FP → FP × FP))
    (s : FP) (fb : String) (t : Option String) (good : List LasData)
    (rest : List ReadResult) (objs : List Obj) (mids : List V3)
    (reps : List Report) :
    executeLoop planar s fb t (good.map .ok ++ rest) objs mids reps
      = executeLoop planar s fb t rest
          (objs ++ good.map (mkObj planar s fb t))
          (mids ++ good.map (fileMid planar s fb t))
          (reps ++ (good.map (fileReports fb)).flatten) := by
  induction good generalizing objs mids reps with
  | nil => simp
  | cons d ds ih =>
      simp only [List.map_cons, List.cons_append, executeLoop, List.flatten_cons,
        List.append_eq]
      rw [ih]
      simp [List.append_assoc]

/-- C7 (amended): the batch loop processes files in input order and, at
the first file whose read fails, reports one error and returns a single
`{'CANCELLED'}` outcome without touching the remaining files — but the
objects built for the earlier files have already been linked to the scene
and remain there: the earlier files' completed computations stay visible;
nothing rolls them back. -/
theorem C7_amended_abort_keeps_linked_objects
    (planar : String → String → (FP × FP → FP × FP)) (s : FP) (fb : String)
    (t : Option String) (good : List LasData) (rest : List ReadResult) :
    execute planar s fb t (good.map .ok ++ .ioError :: rest)
      = ⟨good.map (mkObj planar s fb t),
         (good.map (fileReports fb)).flatten ++
           [⟨.ERROR, "Unable to open raster, check logs for more infos"⟩],
         none, .CANCELLED⟩ := by
  unfold execute
  rw [executeLoop_ok_run]
  simp [executeLoop]

/-- C7 counterexample: a two-file batch whose second file fails to open
ends `{'CANCELLED'}`, yet the scene still contains the object created for
the first file — the earlier file's completed computation is exposed,
contradicting the claim's "no partial result". -/
theorem C7_counterexample :
    (execute (fun _ _ p => p) (.fin 1) "EPSG:4326" (some "EPSG:3857")
        [.ok dOk, .ioError]).outcome = .CANCELLED ∧
    (execute (fun _ _ p => p) (.fin 1) "EPSG:4326" (some "EPSG:3857")
        [.ok dOk, .ioError]).objs ≠ [] := by
  constructor
  · rfl
  · simp [execute, executeLoop]
